import Mathlib

/-!
Verification of the YouTube Companion backend (FastAPI + SQLAlchemy) against
its natural-language specification.

The embedding models the database tables as Lean lists of rows, remote
(YouTube / OAuth / completion-API) calls as explicit outcome parameters of
type `Except`, and each endpoint handler as a pure state-passing function
translated from `src/backend/app/app.py`, `src/backend/app/youtube_api.py`
and `src/backend/app/ai_service.py`.
-/

namespace YTC

/-- Outcome of an HTTP endpoint, as FastAPI surfaces it to the client:
`ok` is a 2xx JSON response, `err code detail` is a raised `HTTPException`,
and `unhandled e` is an exception that escaped the handler (FastAPI turns
it into a generic 500 server error, not an `HTTPException`). -/
inductive Resp (A : Type) where
  | ok (a : A)
  | err (code : Nat) (detail : String)
  | unhandled (exn : String)
deriving DecidableEq, Repr

/-- Row of the `notes` table (`models.Note`): `title`, `content` and `tags`
are nullable columns; `created_at` is a server-side timestamp, modelled as
a natural number. -/
structure Note where
  id : Nat
  video_id : String
  title : Option String
  content : Option String
  tags : Option (List String)
  created_at : Nat
deriving DecidableEq, Repr

/-- Row of the `comments` table (`models.Comment`): the local mirror of a
comment this system posted to YouTube. `youtube_comment_id` is the remote
id; `parent_youtube_id` is set for replies. -/
structure Comment where
  id : Nat
  video_id : String
  youtube_comment_id : String
  parent_youtube_id : Option String
  text : String
deriving DecidableEq, Repr

/-- Row of the `user_sessions` table (`models.UserSession`): the full OAuth
credential set, keyed by `access_token`. -/
structure UserSession where
  access_token : String
  refresh_token : Option String
  token_uri : String
  client_id : String
  client_secret : String
  scopes : List String
deriving DecidableEq, Repr

/-- The credential object returned by `flow.fetch_token` in the OAuth
callback (`creds` in `auth_callback`). `scopes` is nullable. -/
structure Creds where
  token : String
  refresh_token : Option String
  token_uri : String
  client_id : String
  client_secret : String
  scopes : Option (List String)
deriving DecidableEq, Repr

/- ── Python string primitives ──────────────────────────────────────────── -/

/-- Python `str.strip()` on a character list: drop whitespace from both
ends. -/
def stripChars (s : List Char) : List Char :=
  ((s.dropWhile (fun c => c.isWhitespace)).reverse.dropWhile
    (fun c => c.isWhitespace)).reverse

/-- Python `str.strip()`. -/
def pyStrip (s : String) : String :=
  String.mk (stripChars s.data)

/-- Python `str.split(sep)` for a one-character separator, on a character
list: splitting the empty text yields one empty segment, exactly as in
Python. -/
def splitChar (sep : Char) : List Char → List (List Char)
  | [] => [[]]
  | c :: cs =>
      match splitChar sep cs with
      | [] => if c == sep then [[], []] else [[c]]
      | x :: xs => if c == sep then [] :: x :: xs else (c :: x) :: xs

/-- Python `str.split("|")`. -/
def pySplitPipe (s : String) : List String :=
  (splitChar (Char.ofNat 124) s.data).map String.mk

/-- Python `str.lower()` (character-wise). -/
def pyLower (s : String) : String :=
  String.mk (s.data.map Char.toLower)

/- ── AI Suggestion Adapter (`ai_service.generate_viral_titles`) ────────── -/

/-- The Python guard `if not api_key:` treats both an unset environment
variable (`None`) and an empty string as a missing key. -/
def apiKeyMissing : Option String → Bool
  | none => true
  | some s => s == ""

/-- The three fixed instructional strings returned when `GROQ_API_KEY` is
missing from the environment. -/
def missingKeyTitles : List String :=
  ["Error: GROQ_API_KEY is missing from .env",
   "Get a free key at console.groq.com",
   "Then restart the server"]

/-- The deterministic 3-item fallback template used when the model output
does not parse into at least 3 pipe-separated candidates. -/
def fallbackTitles (current_title : String) : List String :=
  ["You Won\x27t Believe What Happened with " ++ current_title,
   "The Truth About " ++ current_title ++ " Nobody Tells You",
   "I Tried " ++ current_title ++ " for 30 Days — Here\x27s What Happened"]

/-- The parsing step of `generate_viral_titles`:
`titles = [t.strip() for t in raw_text.split("|")]` applied to the stripped
completion content. -/
def parseTitles (content : String) : List String :=
  (pySplitPipe (pyStrip content)).map pyStrip

/-- Python `str(e)[:60]`. -/
def truncate60 (e : String) : String :=
  e.take 60

/-- `ai_service.generate_viral_titles`, with the network interaction made
explicit: `response` is the outcome of the completion-API call
(`Except.error e` models any exception caught by the handler — timeout,
non-2xx via `raise_for_status`, malformed body — and `Except.ok` carries
the `choices[0].message.content` string on success). When the key is
missing the function returns before the call, so the result cannot depend
on `response`. -/
def generate_viral_titles (api_key : Option String) (current_title : String)
    (response : Except String String) : List String :=
  if apiKeyMissing api_key then
    missingKeyTitles
  else
    match response with
    | Except.error e =>
        ["Error: " ++ truncate60 e,
         "Check your GROQ_API_KEY in .env",
         "Check server logs for details"]
    | Except.ok content =>
        let titles := parseTitles content
        if titles.length < 3 then fallbackTitles current_title
        else titles.take 3

/- ── Theorems: C8, C9 ──────────────────────────────────────────────────── -/

/-- C9: if the completion-API key is absent from configuration,
`generate_viral_titles` returns exactly the 3 fixed instructional strings
for every input title, and the result is the same whatever the network
response would have been (it short-circuits before the call). -/
theorem missing_key_short_circuit (current_title : String)
    (response : Except String String) :
    generate_viral_titles none current_title response = missingKeyTitles ∧
    (generate_viral_titles none current_title response).length = 3 := by
  constructor
  · rfl
  · rfl

/-- C8: `generate_viral_titles` always returns exactly 3 strings, for every
key configuration and every network outcome; moreover, whenever the
response parses into fewer than 3 pipe-separated trimmed candidates, the
result is exactly the deterministic fallback template derived from the
current title. -/
theorem always_three_titles (current_title raw : String)
    (hshort : (parseTitles raw).length < 3) :
    (∀ (api_key : Option String) (response : Except String String),
      (generate_viral_titles api_key current_title response).length = 3) ∧
    (∀ key : String, apiKeyMissing (some key) = false →
      generate_viral_titles (some key) current_title (Except.ok raw)
        = fallbackTitles current_title) := by
  constructor
  · intro api_key response
    unfold generate_viral_titles
    by_cases hk : apiKeyMissing api_key
    · simp [hk, missingKeyTitles]
    · simp only [hk, Bool.false_eq_true, if_false]
      match response with
      | Except.error e => rfl
      | Except.ok content =>
          simp only []
          by_cases hlen : (parseTitles content).length < 3
          · simp [hlen, fallbackTitles]
          · simp only [hlen, if_false]
            rw [List.length_take]
            omega
  · intro key hkey
    unfold generate_viral_titles
    simp [hkey, hshort]

/-- Witness for C8 at a concrete two-segment response. -/
theorem always_three_titles_witness :
    ((parseTitles "A | B").length < 3) ∧
    ((∀ (api_key : Option String) (response : Except String String),
      (generate_viral_titles api_key "X" response).length = 3) ∧
    (∀ key : String, apiKeyMissing (some key) = false →
      generate_viral_titles (some key) "X" (Except.ok "A | B")
        = fallbackTitles "X")) :=
  ⟨by decide, always_three_titles "X" "A | B" (by decide)⟩

/- ── Comment endpoints (`app.add_comment`, `app.remove_comment`) ───────── -/

/-- `POST /videos/{video_id}/comments` (`app.add_comment`), after session
resolution. `remote` is the outcome of the single remote insert call the
handler makes (`reply_to_comment` when `parent_id` is set, otherwise
`post_comment`); on success it carries the YouTube comment id returned by
the remote platform. The result pairs the new `comments` table with the
HTTP outcome: on remote failure the handler raises 400 before any local
write; on remote success it inserts exactly one mirror row and returns it.
`nextId` models the autoincrement primary key. -/
def add_comment (comments : List Comment) (nextId : Nat) (video_id : String)
    (parent_id : Option String) (text : String)
    (remote : Except String String) : List Comment × Resp Comment :=
  match remote with
  | Except.error e => (comments, Resp.err 400 ("YouTube API error: " ++ e))
  | Except.ok yt_comment_id =>
      let new_comment : Comment :=
        { id := nextId
          video_id := video_id
          youtube_comment_id := yt_comment_id
          parent_youtube_id := parent_id
          text := text }
      (comments ++ [new_comment], Resp.ok new_comment)

/-- `DELETE /comments/{comment_id}` (`app.remove_comment`), after session
resolution. The handler first looks up the mirror row by local integer id;
absence raises 404 before any remote call. Otherwise it issues one remote
delete for the stored `youtube_comment_id` (`remoteDelete` is the outcome
of that call; a failure raises 400 and leaves the row), then deletes the
row.
The result is (new table, remote delete calls issued, HTTP outcome). -/
def remove_comment (comments : List Comment) (comment_id : Nat)
    (remoteDelete : Except String Unit) :
    List Comment × List String × Resp String :=
  match comments.find? (fun c => c.id == comment_id) with
  | none => (comments, [], Resp.err 404 "Comment not found in local DB.")
  | some c =>
      match remoteDelete with
      | Except.error e =>
          (comments, [c.youtube_comment_id],
           Resp.err 400 ("YouTube API error: " ++ e))
      | Except.ok _ =>
          (comments.eraseP (fun x => x.id == comment_id),
           [c.youtube_comment_id],
           Resp.ok "Comment deleted from YouTube and local DB.")

/- ── Theorems: C1, C2 ──────────────────────────────────────────────────── -/

/-- C1: on comment creation, a failed remote insert leaves the mirror table
untouched and surfaces a 400 error; a successful remote insert appends
exactly one mirror row, whose `youtube_comment_id` equals the id returned
by the remote call, and returns that row. -/
theorem add_comment_mirror_consistency (comments : List Comment)
    (nextId : Nat) (video_id text e yt_id : String)
    (parent_id : Option String) :
    (add_comment comments nextId video_id parent_id text (Except.error e)
      = (comments, Resp.err 400 ("YouTube API error: " ++ e))) ∧
    (∃ c : Comment,
      add_comment comments nextId video_id parent_id text (Except.ok yt_id)
        = (comments ++ [c], Resp.ok c) ∧
      c.youtube_comment_id = yt_id) := by
  refine ⟨rfl, ?_⟩
  exact ⟨{ id := nextId, video_id := video_id, youtube_comment_id := yt_id,
           parent_youtube_id := parent_id, text := text }, rfl, rfl⟩

/-- C2: deleting by a local id with no mirror row returns 404 and issues no
remote call; deleting by a local id whose mirror row exists issues exactly
one remote delete call, for the stored remote id, and (on remote success)
removes exactly that one mirror row. -/
theorem remove_comment_symmetry (comments : List Comment)
    (missing_id present_id : Nat) (c : Comment)
    (rd : Except String Unit)
    (habsent : comments.find? (fun x => x.id == missing_id) = none)
    (hfound : comments.find? (fun x => x.id == present_id) = some c) :
    (remove_comment comments missing_id rd
      = (comments, [], Resp.err 404 "Comment not found in local DB.")) ∧
    ((remove_comment comments present_id rd).2.1 = [c.youtube_comment_id]) ∧
    (remove_comment comments present_id (Except.ok ())
      = (comments.eraseP (fun x => x.id == present_id),
         [c.youtube_comment_id],
         Resp.ok "Comment deleted from YouTube and local DB.")) := by
  refine ⟨?_, ?_, ?_⟩
  · unfold remove_comment
    rw [habsent]
  · unfold remove_comment
    rw [hfound]
    cases rd <;> rfl
  · unfold remove_comment
    rw [hfound]

/-- A concrete mirror row used by witnesses. -/
def sampleComment : Comment :=
  { id := 1, video_id := "v", youtube_comment_id := "y",
    parent_youtube_id := none, text := "t" }

/-- Witness for C2: a one-row table, an absent id (2) and a present id (1). -/
theorem remove_comment_symmetry_witness :
    ([sampleComment].find? (fun x => x.id == 2) = none) ∧
    ([sampleComment].find? (fun x => x.id == 1) = some sampleComment) ∧
    ((remove_comment [sampleComment] 2 (Except.ok ())
      = ([sampleComment], [], Resp.err 404 "Comment not found in local DB.")) ∧
     ((remove_comment [sampleComment] 1 (Except.ok ())).2.1
      = [sampleComment.youtube_comment_id]) ∧
     (remove_comment [sampleComment] 1 (Except.ok ())
      = ([sampleComment].eraseP (fun x => x.id == 1),
         [sampleComment.youtube_comment_id],
         Resp.ok "Comment deleted from YouTube and local DB."))) :=
  ⟨by decide, by decide,
   remove_comment_symmetry [sampleComment] 2 1 sampleComment
     (Except.ok ()) (by decide) (by decide)⟩

/- ── Auth endpoints (`app.auth_callback`, `app.logout`) ────────────────── -/

/-- The `UserSession` row built from the credentials in `auth_callback`:
`scopes = list(creds.scopes) if creds.scopes else []`. -/
def sessionOfCreds (c : Creds) : UserSession :=
  { access_token := c.token
    refresh_token := c.refresh_token
    token_uri := c.token_uri
    client_id := c.client_id
    client_secret := c.client_secret
    scopes := c.scopes.getD [] }

/-- The credential-store step of `app.auth_callback`: query the
`user_sessions` table for a row whose `access_token` equals the fresh
token and insert a new row only when none exists (find-or-create). -/
def auth_callback_store (sessions : List UserSession) (c : Creds) :
    List UserSession :=
  if sessions.any (fun s => s.access_token == c.token) then sessions
  else sessions ++ [sessionOfCreds c]

/-- Number of `user_sessions` rows holding a given access token. -/
def sessionCount (sessions : List UserSession) (tok : String) : Nat :=
  (sessions.filter (fun s => s.access_token == tok)).length

/-- `POST /logout` (`app.logout`), after bearer extraction. `revoke` is the
outcome of `requests.post` against the Google revocation endpoint:
`Except.ok status` is a completed HTTP exchange with the given response
status (the handler never inspects it), `Except.error e` is a raised
request exception, which escapes the handler before the delete. -/
def logout (sessions : List UserSession) (token : String)
    (revoke : Except String Nat) : List UserSession × Resp String :=
  match revoke with
  | Except.error e => (sessions, Resp.unhandled e)
  | Except.ok _status =>
      (sessions.filter (fun s => !(s.access_token == token)),
       Resp.ok "Logged out successfully.")

/-- 2xx check on an HTTP status, the usual notion of a successful
revocation response. -/
def isHttpSuccess (status : Nat) : Bool :=
  decide (200 ≤ status) && decide (status < 300)

/- ── GET /videos/{id} (`app.get_video`) ────────────────────────────────── -/

/-- `GET /videos/{video_id}` (`app.get_video`), after session resolution.
`V` is the payload type of a fetched video object. `fetchRes` is the
outcome of `fetch_video_details`: `Except.ok none` models an empty `items`
list (video absent remotely), `Except.ok (some v)` a found video, and
`Except.error e` a raised YouTube API exception — the handler has no
try/except around this call, so the exception escapes unhandled. -/
def get_video (V : Type) (fetchRes : Except String (Option V))
    (video_id : String) : Resp V :=
  match fetchRes with
  | Except.error e => Resp.unhandled e
  | Except.ok none =>
      Resp.err 404 ("Video " ++ video_id ++ " not found on YouTube.")
  | Except.ok (some v) => Resp.ok v

/-- Whether a response is a 400 with some detail string. -/
def isErr400 {V : Type} : Resp V → Bool
  | Resp.err 400 _ => true
  | _ => false

/- ── Theorems: C3, C4, C5 ──────────────────────────────────────────────── -/

/-- C3: the OAuth-callback credential store is a find-or-create on
`access_token`: storing the same credentials a second time changes
nothing, and the at-most-one-row-per-token invariant is preserved by
every store. -/
theorem auth_callback_idempotent (sessions : List UserSession) (c : Creds)
    (hinv : ∀ tok, sessionCount sessions tok ≤ 1) :
    auth_callback_store (auth_callback_store sessions c) c
      = auth_callback_store sessions c ∧
    (∀ tok, sessionCount (auth_callback_store sessions c) tok ≤ 1) := by
  unfold auth_callback_store
  by_cases h : sessions.any (fun s => s.access_token == c.token)
  · simp only [h, if_true]
    exact ⟨by simp [h], hinv⟩
  · simp only [h, Bool.false_eq_true, if_false]
    constructor
    · have hnew : (sessions ++ [sessionOfCreds c]).any
          (fun s => s.access_token == c.token) = true := by
        rw [List.any_append]
        simp [sessionOfCreds]
      simp [hnew]
    · intro tok
      unfold sessionCount
      rw [List.filter_append, List.length_append]
      by_cases htok : c.token = tok
      · subst htok
        have hzero : sessions.filter
            (fun s => s.access_token == c.token) = [] := by
          rw [List.filter_eq_nil_iff]
          intro s hs
          have := (List.any_eq_false.mp (Bool.not_eq_true _ ▸ h)) s hs
          simpa using this
        have : sessionCount sessions c.token = 0 := by
          unfold sessionCount
          rw [hzero]
          rfl
        unfold sessionCount at this
        rw [this]
        simp [sessionOfCreds]
      · have hbe : (c.token == tok) = false := by
          simpa using htok
        have hone : ([sessionOfCreds c].filter
            (fun s => s.access_token == tok)).length = 0 := by
          simp [sessionOfCreds, List.filter, hbe]
        rw [hone]
        have := hinv tok
        unfold sessionCount at this
        omega

/-- A concrete credential set used by witnesses. -/
def sampleCreds : Creds :=
  { token := "tok", refresh_token := some "r", token_uri := "u",
    client_id := "ci", client_secret := "cs", scopes := some ["s1"] }

/-- Witness for C3: storing into an empty table twice. -/
theorem auth_callback_idempotent_witness :
    (∀ tok, sessionCount [] tok ≤ 1) ∧
    (auth_callback_store (auth_callback_store [] sampleCreds) sampleCreds
      = auth_callback_store [] sampleCreds ∧
    (∀ tok, sessionCount (auth_callback_store [] sampleCreds) tok ≤ 1)) :=
  ⟨fun _ => Nat.zero_le 1,
   auth_callback_idempotent [] sampleCreds (fun _ => Nat.zero_le 1)⟩

/-- A concrete stored session used by counterexamples. -/
def sampleSession : UserSession :=
  { access_token := "tok", refresh_token := some "r", token_uri := "u",
    client_id := "ci", client_secret := "cs", scopes := ["s1"] }

/-- C4 counterexample: the revocation endpoint answers with status 400
(not a success), yet `logout` still deletes the stored Session row — the
handler never inspects the revocation response. -/
theorem logout_deletes_despite_failed_revocation :
    isHttpSuccess 400 = false ∧
    (logout [sampleSession] "tok" (Except.ok 400)).1 = [] ∧
    (logout [sampleSession] "tok" (Except.ok 400)).2
      = Resp.ok "Logged out successfully." := by
  refine ⟨rfl, ?_, rfl⟩
  decide

/-- C4 amended: `logout` deletes every Session row holding the presented
token whenever the revocation HTTP exchange completes, whatever the
response status; the row survives only when the revocation request itself
raises, in which case the exception escapes the handler. -/
theorem logout_deletes_unconditionally (sessions : List UserSession)
    (token e : String) (status : Nat) :
    logout sessions token (Except.ok status)
      = (sessions.filter (fun s => !(s.access_token == token)),
         Resp.ok "Logged out successfully.") ∧
    logout sessions token (Except.error e)
      = (sessions, Resp.unhandled e) :=
  ⟨rfl, rfl⟩

/-- C5 counterexample: when the remote fetch raises, `get_video` does not
return a 400 response — the exception escapes the handler unhandled. -/
theorem get_video_error_not_400 :
    get_video String (Except.error "boom") "vid123"
      = Resp.unhandled "boom" ∧
    isErr400 (get_video String (Except.error "boom") "vid123") = false :=
  ⟨rfl, rfl⟩

/-- C5 amended: `GET /videos/{id}` returns 404 when the video is absent
remotely and the fetched video on success, but an exception raised by the
remote call propagates out of the handler unhandled (a generic server
error), never as a 400 response. -/
theorem get_video_spec (V : Type) (e video_id : String) (v : V) :
    get_video V (Except.error e) video_id = Resp.unhandled e ∧
    get_video V (Except.ok none) video_id
      = Resp.err 404 ("Video " ++ video_id ++ " not found on YouTube.") ∧
    get_video V (Except.ok (some v)) video_id = Resp.ok v ∧
    isErr400 (get_video V (Except.error e) video_id) = false :=
  ⟨rfl, rfl, rfl, rfl⟩

/- ── Remote metadata update (`youtube_api.update_video_info`) ──────────── -/

/-- Python dict assignment `snippet[k] = v` on a snippet modelled as an
association list with values of type `A`: replace the value at an existing
key, or append the binding when the key is absent. -/
def setKey {A : Type} (s : List (String × A)) (k : String) (v : A) :
    List (String × A) :=
  if s.any (fun p => p.1 == k) then
    s.map (fun p => if p.1 == k then (k, v) else p)
  else s ++ [(k, v)]

/-- Keys kept when erasing the two mutated fields from a snippet. -/
def keepKey (key : String) : Bool :=
  !(key == "title") && !(key == "description")

/-- A snippet with its `title` and `description` bindings erased; two
snippets agreeing here agree on every other field. -/
def stripTitleDesc {A : Type} (s : List (String × A)) : List (String × A) :=
  s.filter (fun p => keepKey p.1)

/-- `youtube_api.update_video_info`: fetch the CURRENT full snippet of the
video from the remote platform (`remote` maps a video id to its snippet,
`none` when the video does not exist, in which case the function raises),
overwrite exactly the `title` and `description` entries of that freshly
fetched object, and send the merged object back. The returned value is the
snippet sent in the update call body. -/
def update_video_info {A : Type}
    (remote : String → Option (List (String × A)))
    (video_id : String) (title description : A) :
    Except String (List (String × A)) :=
  match remote video_id with
  | none => Except.error ("Video " ++ video_id ++ " not found on YouTube.")
  | some snippet =>
      Except.ok (setKey (setKey snippet "title" title)
        "description" description)

/-- Filtering on kept keys ignores the rewriting of bindings at an erased
key. -/
theorem filter_map_setEntry {A : Type} (s : List (String × A))
    (k : String) (v : A) (hk : keepKey k = false) :
    (s.map (fun p => if p.1 == k then (k, v) else p)).filter
        (fun p => keepKey p.1)
      = s.filter (fun p => keepKey p.1) := by
  induction s with
  | nil => rfl
  | cons p ps ih =>
      rw [List.map_cons, List.filter_cons, List.filter_cons]
      by_cases hp : (p.1 == k) = true
      · have hpk : p.1 = k := by simpa using hp
        simp only [hp, if_true]
        simp only [hpk, hk, Bool.false_eq_true, if_false]
        exact ih
      · simp only [Bool.not_eq_true] at hp
        simp only [hp, Bool.false_eq_true, if_false]
        rw [ih]

/-- Erasing a key whose bindings are filtered out anyway commutes with
`setKey`: setting `title` or `description` never disturbs the other
fields. -/
theorem stripTitleDesc_setKey {A : Type} (s : List (String × A))
    (k : String) (v : A) (hk : keepKey k = false) :
    stripTitleDesc (setKey s k v) = stripTitleDesc s := by
  unfold setKey stripTitleDesc
  by_cases h : s.any (fun p => p.1 == k)
  · simp only [h, if_true]
    exact filter_map_setEntry s k v hk
  · simp only [h, Bool.false_eq_true, if_false]
    rw [List.filter_append]
    simp [hk]

/-- Looking up an erased key in the map form of `setKey` finds the new
value, provided some binding with that key exists. -/
theorem lookup_map_set {A : Type} (k : String) (v : A) :
    ∀ s : List (String × A), s.any (fun p => p.1 == k) = true →
      List.lookup k (s.map (fun p => if p.1 == k then (k, v) else p))
        = some v := by
  intro s
  induction s with
  | nil => intro h; simp at h
  | cons p ps ih =>
      obtain ⟨p1, p2⟩ := p
      intro h
      simp only [List.map_cons]
      by_cases hp : (p1 == k) = true
      · rw [if_pos hp, List.lookup_cons]
        simp
      · have hpf : (p1 == k) = false := by simpa using hp
        rw [if_neg hp, List.lookup_cons]
        have hkp : (k == p1) = false := by
          have hne : p1 ≠ k := by simpa using hpf
          simpa using hne.symm
        rw [hkp]
        simp only [List.any_cons, hpf, Bool.false_or] at h
        exact ih h

/-- Looking up a key absent from `s` in `s ++ [(k, v)]` finds `v`. -/
theorem lookup_append_single_self {A : Type} (k : String) (v : A) :
    ∀ s : List (String × A), (∀ p ∈ s, (p.1 == k) = false) →
      List.lookup k (s ++ [(k, v)]) = some v := by
  intro s
  induction s with
  | nil => intro _; simp [List.lookup_cons]
  | cons p ps ih =>
      obtain ⟨p1, p2⟩ := p
      intro hall
      rw [List.cons_append, List.lookup_cons]
      have hpf : (p1 == k) = false := by simpa using hall (p1, p2) (by simp)
      have hkp : (k == p1) = false := by
        have hne : p1 ≠ k := by simpa using hpf
        simpa using hne.symm
      rw [hkp]
      exact ih (fun q hq => hall q (List.mem_cons_of_mem _ hq))

/-- After `setKey s k v`, looking up `k` yields `v`. -/
theorem lookup_setKey_self {A : Type} (s : List (String × A))
    (k : String) (v : A) :
    List.lookup k (setKey s k v) = some v := by
  unfold setKey
  by_cases h : s.any (fun p => p.1 == k)
  · rw [if_pos h]
    exact lookup_map_set k v s h
  · rw [if_neg h]
    refine lookup_append_single_self k v s ?_
    intro p hp
    have hfalse : s.any (fun p => p.1 == k) = false := Bool.eq_false_iff.mpr h
    have := List.any_eq_false.mp hfalse p hp
    simpa using this

/-- The map form of `setKey` at key `k` does not change lookups at any
other key. -/
theorem lookup_map_set_other {A : Type} (k k2 : String) (v : A)
    (hne : (k2 == k) = false) :
    ∀ s : List (String × A),
      List.lookup k2 (s.map (fun p => if p.1 == k then (k, v) else p))
        = List.lookup k2 s := by
  intro s
  induction s with
  | nil => rfl
  | cons p ps ih =>
      obtain ⟨p1, p2⟩ := p
      simp only [List.map_cons]
      by_cases hp : (p1 == k) = true
      · have hpk : p1 = k := by simpa using hp
        rw [if_pos hp, List.lookup_cons, List.lookup_cons]
        rw [hne, hpk, hne]
        exact ih
      · rw [if_neg hp, List.lookup_cons, List.lookup_cons]
        by_cases hq : (k2 == p1) = true
        · rw [hq]
        · have hqf : (k2 == p1) = false := by simpa using hq
          rw [hqf]
          exact ih

/-- Appending a binding at key `k` does not change lookups at any other
key. -/
theorem lookup_append_single_other {A : Type} (k k2 : String) (v : A)
    (hne : (k2 == k) = false) :
    ∀ s : List (String × A),
      List.lookup k2 (s ++ [(k, v)]) = List.lookup k2 s := by
  intro s
  induction s with
  | nil => simp [List.lookup_cons, hne]
  | cons p ps ih =>
      obtain ⟨p1, p2⟩ := p
      rw [List.cons_append, List.lookup_cons, List.lookup_cons]
      by_cases hq : (k2 == p1) = true
      · rw [hq]
      · have hqf : (k2 == p1) = false := by simpa using hq
        rw [hqf]
        exact ih

/-- `setKey` at key `k` does not change lookups at any other key. -/
theorem lookup_setKey_other {A : Type} (s : List (String × A))
    (k k2 : String) (v : A) (hne : (k2 == k) = false) :
    List.lookup k2 (setKey s k v) = List.lookup k2 s := by
  unfold setKey
  by_cases h : s.any (fun p => p.1 == k)
  · rw [if_pos h]
    exact lookup_map_set_other k k2 v hne s
  · rw [if_neg h]
    exact lookup_append_single_other k k2 v hne s

/- ── Theorem: C6 ───────────────────────────────────────────────────────── -/

/-- C6: `update_video_info` is read-modify-write: it succeeds exactly by
sending back the freshly fetched snippet with only the `title` and
`description` entries overwritten — every other field of the merged object
equals the corresponding field of the fetched snippet. -/
theorem update_video_info_read_modify_write {A : Type}
    (remote : String → Option (List (String × A)))
    (video_id : String) (title description : A)
    (snippet : List (String × A))
    (h : remote video_id = some snippet) :
    update_video_info remote video_id title description
      = Except.ok (setKey (setKey snippet "title" title)
          "description" description) ∧
    stripTitleDesc (setKey (setKey snippet "title" title)
        "description" description)
      = stripTitleDesc snippet ∧
    List.lookup "title" (setKey (setKey snippet "title" title)
        "description" description) = some title ∧
    List.lookup "description" (setKey (setKey snippet "title" title)
        "description" description) = some description := by
  refine ⟨?_, ?_, ?_, ?_⟩
  · unfold update_video_info
    rw [h]
  · rw [stripTitleDesc_setKey _ _ _ (by decide),
        stripTitleDesc_setKey _ _ _ (by decide)]
  · rw [lookup_setKey_other _ _ _ _ (by decide)]
    exact lookup_setKey_self snippet "title" title
  · exact lookup_setKey_self _ "description" description

/-- A concrete fetched snippet with fields beyond title and description. -/
def sampleSnippet : List (String × String) :=
  [("categoryId", "22"), ("title", "old"),
   ("description", "d0"), ("tags", "t0")]

/-- A concrete remote platform holding one video. -/
def sampleRemote : String → Option (List (String × String)) :=
  fun vid => if vid == "abc" then some sampleSnippet else none

/-- Witness for C6 at the concrete remote platform. -/
theorem update_video_info_read_modify_write_witness :
    sampleRemote "abc" = some sampleSnippet ∧
    (update_video_info sampleRemote "abc" "newT" "newD"
      = Except.ok (setKey (setKey sampleSnippet "title" "newT")
          "description" "newD") ∧
    stripTitleDesc (setKey (setKey sampleSnippet "title" "newT")
        "description" "newD")
      = stripTitleDesc sampleSnippet ∧
    List.lookup "title" (setKey (setKey sampleSnippet "title" "newT")
        "description" "newD") = some "newT" ∧
    List.lookup "description" (setKey (setKey sampleSnippet "title" "newT")
        "description" "newD") = some "newD") :=
  ⟨by decide,
   update_video_info_read_modify_write sampleRemote "abc" "newT" "newD"
     sampleSnippet (by decide)⟩

/- ── Notes listing (`app.get_notes`) ───────────────────────────────────── -/

/-- Order used by `ORDER BY created_at DESC`: most recent first. -/
def recentFirst (a b : Note) : Prop :=
  b.created_at ≤ a.created_at

instance : DecidableRel recentFirst :=
  fun a b => Nat.decLe b.created_at a.created_at

instance : IsTotal Note recentFirst :=
  ⟨fun a b => Nat.le_total b.created_at a.created_at⟩

instance : IsTrans Note recentFirst :=
  ⟨fun _ _ _ hab hbc => Nat.le_trans hbc hab⟩

/-- Whether `needle` occurs contiguously inside the haystack. -/
def containsSeg (needle : List Char) : List Char → Bool
  | [] => needle == ([] : List Char)
  | c :: t => needle.isPrefixOf (c :: t) || containsSeg needle t

/-- Case-insensitive substring test, the meaning of
`column ILIKE escape-free pattern` with a `%...%` pattern; a NULL column
never matches. -/
def ilikeContains (column : Option String) (needle : String) : Bool :=
  match column with
  | none => false
  | some c => containsSeg (pyLower needle).data (pyLower c).data

/-- The Python tag predicate
`any(t.strip().lower() == tag_lower for t in (n.tags or []))`. -/
def tagMatch (tags : Option (List String)) (tag_lower : String) : Bool :=
  (tags.getD []).any (fun t => pyLower (pyStrip t) == tag_lower)

/-- `GET /videos/{video_id}/notes` (`app.get_notes`): filter the `notes`
table by `video_id` and, when a non-empty `search` is given, by a
case-insensitive substring match on content or title at the storage layer;
order by `created_at` descending; finally, when a non-empty `tag` is
given, filter in application code by the case-insensitive trimmed tag
predicate. Python truthiness makes an empty-string `search` or `tag`
behave as if absent. -/
def get_notes (notes : List Note) (video_id : String)
    (search : Option String) (tag : Option String) : List Note :=
  let base := notes.filter (fun n => n.video_id == video_id)
  let searched :=
    match search with
    | none => base
    | some s =>
        if s == "" then base
        else base.filter (fun n =>
          ilikeContains n.content s || ilikeContains n.title s)
  let sorted := List.insertionSort recentFirst searched
  match tag with
  | none => sorted
  | some t =>
      if t == "" then sorted
      else sorted.filter (fun n => tagMatch n.tags (pyLower (pyStrip t)))

/- ── Theorem: C7 ───────────────────────────────────────────────────────── -/

/-- A note carrying the tag `foo`, used by the C7 counterexample and
witnesses. -/
def sampleTaggedNote : Note :=
  { id := 1, video_id := "v", title := none, content := none,
    tags := some ["foo"], created_at := 0 }

/-- C7 counterexample: with the empty tag string the handler skips the tag
filter entirely, so it returns a note none of whose tags matches the empty
string under the trimmed case-insensitive comparison — the claim, read at
`t = ""`, demands an empty result. -/
theorem get_notes_empty_tag_counterexample :
    get_notes [sampleTaggedNote] "v" none (some "") = [sampleTaggedNote] ∧
    tagMatch sampleTaggedNote.tags (pyLower (pyStrip "")) = false := by
  constructor
  · decide
  · decide

/-- C7 amended: for every NON-empty tag string `t`, `get_notes` returns
exactly the notes of the video whose tag set contains a trimmed
case-insensitive match for `t` (so notes with an empty or absent tag set
are never returned), ordered by creation time, most recent first. -/
theorem get_notes_tag_filter (notes : List Note) (video_id t : String)
    (ht : (t == "") = false) :
    (∀ n, n ∈ get_notes notes video_id none (some t) ↔
      (n ∈ notes ∧ n.video_id = video_id ∧
        tagMatch n.tags (pyLower (pyStrip t)) = true)) ∧
    (∀ n ∈ get_notes notes video_id none (some t),
      n.tags.getD [] ≠ []) ∧
    (get_notes notes video_id none (some t)).Sorted recentFirst := by
  have hres : get_notes notes video_id none (some t)
      = (List.insertionSort recentFirst
          (notes.filter (fun n => n.video_id == video_id))).filter
            (fun n => tagMatch n.tags (pyLower (pyStrip t))) := by
    unfold get_notes
    simp only [ht, Bool.false_eq_true, if_false]
  refine ⟨?_, ?_, ?_⟩
  · intro n
    rw [hres, List.mem_filter, List.mem_insertionSort, List.mem_filter]
    constructor
    · rintro ⟨⟨hmem, hvid⟩, htag⟩
      exact ⟨hmem, by simpa using hvid, htag⟩
    · rintro ⟨hmem, hvid, htag⟩
      exact ⟨⟨hmem, by simpa using hvid⟩, htag⟩
  · intro n hn
    rw [hres, List.mem_filter] at hn
    intro hempty
    have := hn.2
    unfold tagMatch at this
    rw [hempty] at this
    simp at this
  · rw [hres]
    refine List.Pairwise.sublist (List.filter_sublist _) ?_
    exact List.sorted_insertionSort recentFirst _

/-- Witness for C7 at a concrete table and the tag string `Foo`. -/
theorem get_notes_tag_filter_witness :
    (("Foo" == "") = false) ∧
    ((∀ n, n ∈ get_notes [sampleTaggedNote] "v" none (some "Foo") ↔
      (n ∈ [sampleTaggedNote] ∧ n.video_id = "v" ∧
        tagMatch n.tags (pyLower (pyStrip "Foo")) = true)) ∧
    (∀ n ∈ get_notes [sampleTaggedNote] "v" none (some "Foo"),
      n.tags.getD [] ≠ []) ∧
    (get_notes [sampleTaggedNote] "v" none (some "Foo")).Sorted
      recentFirst) :=
  ⟨by decide, get_notes_tag_filter [sampleTaggedNote] "v" "Foo" (by decide)⟩

/- ── Metadata endpoint local upsert (`app.update_metadata`) ────────────── -/

/-- `note.title = body.title` applied to the FIRST `notes` row whose
`video_id` matches, leaving every other column and row untouched
(the `.first()` + attribute-assignment step of the upsert). -/
def setTitleFirst : List Note → String → String → List Note
  | [], _, _ => []
  | n :: ns, video_id, title =>
      if n.video_id == video_id then { n with title := some title } :: ns
      else n :: setTitleFirst ns video_id title

/-- `PUT /videos/{video_id}/metadata` (`app.update_metadata`), after
session resolution. `remote` is the outcome of `update_video_info`; on
failure the handler raises 400 before any local write. On success it
upserts into `notes`: the first row with this `video_id` gets its `title`
column overwritten, or a fresh row (title only, content NULL, tags
defaulted) is inserted. The request description is sent to YouTube but
never stored locally. `nextId`/`now` model the autoincrement key and the
server-side `created_at` default. -/
def update_metadata (remote : Except String Unit) (notes : List Note)
    (nextId now : Nat) (video_id title _description : String) :
    List Note × Resp String :=
  match remote with
  | Except.error e => (notes, Resp.err 400 ("YouTube API error: " ++ e))
  | Except.ok _ =>
      let upserted :=
        if notes.any (fun n => n.video_id == video_id) then
          setTitleFirst notes video_id title
        else
          notes ++ [{ id := nextId, video_id := video_id,
                      title := some title, content := none,
                      tags := some [], created_at := now }]
      (upserted, Resp.ok "Video title and description updated on YouTube.")

/- ── Theorem: C10 ──────────────────────────────────────────────────────── -/

/-- `setTitleFirst` on a table split around its first matching row. -/
theorem setTitleFirst_append (n : Note) (post : List Note) (title : String) :
    ∀ pre : List Note, (∀ m ∈ pre, (m.video_id == n.video_id) = false) →
      setTitleFirst (pre ++ n :: post) n.video_id title
        = pre ++ { n with title := some title } :: post := by
  intro pre
  induction pre with
  | nil =>
      intro _
      rw [List.nil_append, List.nil_append]
      unfold setTitleFirst
      simp
  | cons m ms ih =>
      intro hall
      rw [List.cons_append, List.cons_append]
      unfold setTitleFirst
      have hm : (m.video_id == n.video_id) = false := hall m (by simp)
      rw [hm]
      simp only [Bool.false_eq_true, if_false]
      rw [ih (fun q hq => hall q (List.mem_cons_of_mem _ hq))]

/-- C10: after a successful remote metadata update, the local upsert
overwrites only the `title` column of the first note row for that video —
its content and tags are untouched, every other row is untouched — and the
resulting table does not depend on the submitted description. -/
theorem update_metadata_local_only_title (pre post : List Note) (n : Note)
    (nextId now : Nat) (title d d2 : String)
    (hpre : ∀ m ∈ pre, (m.video_id == n.video_id) = false) :
    (update_metadata (Except.ok ()) (pre ++ n :: post) nextId now
        n.video_id title d).1
      = pre ++ { n with title := some title } :: post ∧
    (update_metadata (Except.ok ()) (pre ++ n :: post) nextId now
        n.video_id title d).1
      = (update_metadata (Except.ok ()) (pre ++ n :: post) nextId now
          n.video_id title d2).1 := by
  have hany : ((pre ++ n :: post).any
      (fun m => m.video_id == n.video_id)) = true := by
    rw [List.any_append]
    simp
  constructor
  · unfold update_metadata
    simp only [hany, if_true]
    exact setTitleFirst_append n post title pre hpre
  · rfl

/-- Witness for C10: a singleton table holding one user-authored note. -/
theorem update_metadata_local_only_title_witness :
    (∀ m ∈ ([] : List Note),
      (m.video_id == sampleTaggedNote.video_id) = false) ∧
    ((update_metadata (Except.ok ()) ([] ++ sampleTaggedNote :: []) 2 7
        sampleTaggedNote.video_id "newTitle" "newDesc").1
      = [] ++ { sampleTaggedNote with title := some "newTitle" } :: [] ∧
    (update_metadata (Except.ok ()) ([] ++ sampleTaggedNote :: []) 2 7
        sampleTaggedNote.video_id "newTitle" "newDesc").1
      = (update_metadata (Except.ok ()) ([] ++ sampleTaggedNote :: []) 2 7
          sampleTaggedNote.video_id "newTitle" "otherDesc").1) :=
  ⟨by simp,
   update_metadata_local_only_title [] [] sampleTaggedNote 2 7
     "newTitle" "newDesc" "otherDesc" (by simp)⟩

end YTC
